import Mathlib

/-!
Shallow embedding of `scripts/mcp_context7_demo.py`.

The script defines one class, `HelloContext`, whose `handle` method returns
a constant dictionary, and a `__main__` block that constructs a
`HelloContext`, wraps it in an `MCPServer`, prints a startup line and calls
`serve(port=8008)`.  The external library (`MCPServer`, `Context`) is
opaque; its calls are modelled as parameters.
-/

/-- The constant dictionary literal returned by `HelloContext.handle`:
the Python value with key "message" bound to the greeting string. -/
def helloResponse : List (String × String) :=
  [("message", "Hello from context7!")]

/-- Embedding of `HelloContext.handle`: the method body is a single
`return` of the dictionary literal, for a request of arbitrary type. -/
def HelloContext.handle {α : Type} (_request : α) : List (String × String) :=
  helloResponse

/-- Stateful embedding of `HelloContext.handle`: the method is viewed as a
transformer of the handler's state (`σ`) and of the request object (`α`);
since the body contains no assignment and no mutating call, it returns the
state and the request unchanged together with the response dictionary. -/
def HelloContext.handleS {σ α : Type} (state : σ) (request : α) :
    σ × α × List (String × String) :=
  (state, request, helloResponse)

/-- Fallible embedding of `HelloContext.handle`: Python calls may raise, so
the method is modelled in `Except`; the body is a single dictionary-literal
`return`, which cannot raise, so the embedding always succeeds. -/
def HelloContext.handleE {α : Type} (_request : α) :
    Except String (List (String × String)) :=
  Except.ok helloResponse

/-- Observable events of the script, in the order the `__main__` block
performs them. -/
inductive Event where
  | constructHandler : Event
  | constructServer : Event
  | printed : String → Event
  | served : Nat → Event
  deriving DecidableEq, Repr

/-- Whether an event is a print of the startup line. -/
def Event.isPrinted : Event → Bool
  | Event.printed _ => true
  | _ => false

/-- Whether an event is a call to `server.serve`. -/
def Event.isServed : Event → Bool
  | Event.served _ => true
  | _ => false

/-- The string literal printed by the `__main__` block. -/
def startupMessage : String :=
  "Starting MCP server on http://localhost:8008 ..."

/-- The hardcoded port passed to `server.serve`. -/
def servePort : Nat := 8008

/-- Event trace of importing or running the module: when `__name__` equals
`'__main__'` the guarded block runs its four steps in source order
(construct the `HelloContext`, construct the `MCPServer` around it, print
the startup line, call `serve(port=8008)`); otherwise the guard fails and
nothing beyond the class definition happens. -/
def scriptTrace (isMain : Bool) : List Event :=
  if isMain then
    [Event.constructHandler, Event.constructServer,
     Event.printed startupMessage, Event.served servePort]
  else []

/-- The ports passed to `serve` calls in a trace. -/
def servedPorts (t : List Event) : List Nat :=
  t.filterMap (fun e => match e with
    | Event.served p => some p
    | _ => none)

/-- The strings printed in a trace. -/
def printedLines (t : List Event) : List String :=
  t.filterMap (fun e => match e with
    | Event.printed s => some s
    | _ => none)

/-- Error-propagation model of the `__main__` block: the external calls
`MCPServer(context=...)` and `server.serve(port=8008)` may raise, modelled
as `Except`-valued parameters.  The block contains no `try`/`except`, so a
raise at either call propagates: this is exactly `Except` bind. -/
def runMainBlock {Server ε : Type} (mkServer : Except ε Server)
    (serve : Server → Nat → Except ε Unit) : Except ε Unit :=
  match mkServer with
  | Except.error e => Except.error e
  | Except.ok server => serve server servePort

/- Theorems settling the claims. -/

/-- C1: for every request value passed to `HelloContext.handle`, the
returned response equals the constant dictionary mapping "message" to
"Hello from context7!"; the result does not depend on the request. -/
theorem handle_constant {α : Type} (request : α) :
    HelloContext.handle request = [("message", "Hello from context7!")] :=
  rfl

/-- C2: the `__main__` run makes exactly one `serve` call, and that call
passes the hardcoded port 8008; no other listening endpoint is requested. -/
theorem serve_called_once_on_8008 :
    servedPorts (scriptTrace true) = [8008] :=
  rfl

/-- C3: in the `__main__` event trace the startup message is printed
exactly once, and the (unique) print occurs strictly before the serve
call. -/
theorem printed_once_before_serve :
    printedLines (scriptTrace true) = [startupMessage] ∧
    (scriptTrace true).findIdx Event.isPrinted <
      (scriptTrace true).findIdx Event.isServed :=
  ⟨rfl, by decide⟩

/-- C4: the `__main__` steps occur in this exact linear order: handler
construction, then server construction with that handler, then the print,
then the serve call; nothing is skipped, repeated or reordered. -/
theorem main_steps_linear :
    scriptTrace true =
      [Event.constructHandler, Event.constructServer,
       Event.printed startupMessage, Event.served 8008] :=
  rfl

/-- C5: `HelloContext.handle` has no side effects: for every handler state
and every request, the state and the request come back unchanged. -/
theorem handle_no_side_effects {σ α : Type} (state : σ) (request : α) :
    (HelloContext.handleS state request).1 = state ∧
    (HelloContext.handleS state request).2.1 = request :=
  ⟨rfl, rfl⟩

/-- C6: `HelloContext.handle` never fails: for every request, the fallible
embedding returns normally with the response value and never takes the
error path. -/
theorem handle_never_fails {α : Type} (request : α) :
    HelloContext.handleE request = Except.ok (HelloContext.handle request) :=
  rfl

/-- C7: the script installs no exception handlers: an exception raised
during `MCPServer` construction, or one raised during the `serve` call,
propagates unhandled out of the `__main__` block. -/
theorem errors_propagate_unhandled {Server ε : Type}
    (mkServer : Except ε Server) (serve : Server → Nat → Except ε Unit)
    (e : ε) :
    (mkServer = Except.error e →
      runMainBlock mkServer serve = Except.error e) ∧
    (∀ s : Server, mkServer = Except.ok s →
      serve s servePort = Except.error e →
      runMainBlock mkServer serve = Except.error e) := by
  constructor
  · intro h
    simp [runMainBlock, h]
  · intro s hs hserve
    simp [runMainBlock, hs, hserve]

/-- Witness for C7: both failure sites observed at concrete inputs, a
construction failure and a serve failure, each propagating out. -/
theorem errors_propagate_unhandled_witness :
    @runMainBlock Unit Nat (Except.error 5)
      (fun _ _ => Except.ok ()) = Except.error 5 ∧
    @runMainBlock Unit Nat (Except.ok ())
      (fun _ _ => Except.error 7) = Except.error 7 :=
  ⟨(errors_propagate_unhandled (Except.error 5)
      (fun _ _ => Except.ok ()) 5).1 rfl,
   (errors_propagate_unhandled (Except.ok ())
      (fun _ _ => Except.error 7) 7).2 () rfl rfl⟩

/-- C8: importing the module (when `__name__` is not `'__main__'`) has no
observable effect: no server construction, no print, no serve call. -/
theorem import_has_no_effect :
    scriptTrace false = [] :=
  rfl

/-- C9: the single startup line printed under `__main__` is exactly the
string "Starting MCP server on http://localhost:8008 ...", the port named
in it is the decimal rendering of `servePort`, and `servePort` is the port
actually passed to `serve`. -/
theorem startup_message_names_serve_port :
    printedLines (scriptTrace true) =
      ["Starting MCP server on http://localhost:8008 ..."] ∧
    startupMessage =
      "Starting MCP server on http://localhost:" ++ toString servePort
        ++ " ..." ∧
    servedPorts (scriptTrace true) = [servePort] :=
  ⟨rfl, rfl, rfl⟩
